import Mathlib

/-!
Verification of the two RAPIDS demo notebooks of this repository
(ridge_regression_demo and the SGD notebook) against their
natural-language specification.

Numeric values are modelled as rationals, two-dimensional numeric arrays
as lists of rows, and pandas/cuDF dataframes built from column
dictionaries as lists of columns.  Python exceptions are modelled with
Except.  Randomness (np.random draws, the loaded mortgage array, the
file-system state) is passed to the embedded functions as explicit
inputs.
-/

/-- A two-dimensional numeric array: a list of rows. -/
abbrev Mat := List (List ℚ)

/-- Shape of the second axis, X.shape 1, for a rectangular array. -/
def width (M : Mat) : ℕ := (M.headD []).length

/-- Column j of a matrix, X[:, j]. -/
def getCol (M : Mat) (j : ℕ) : List ℚ := M.map (fun r => r.getD j 0)

/-- Fancy indexing on the second axis, X[:, idxs]. -/
def selectCols (M : Mat) (idxs : List ℕ) : Mat :=
  M.map (fun r => idxs.map (fun i => r.getD i 0))

/-- Fancy indexing on the first axis, X[rindices, :]. -/
def selectRows (M : Mat) (idxs : List ℕ) : Mat :=
  idxs.map (fun i => M.getD i [])

/-- The index list of the source line
X[:, [i for i in range(X.shape[1]) if i != 4]]. -/
def colIdxNo4 (w : ℕ) : List ℕ :=
  (List.range w).filter (fun i => decide (i ≠ 4))

/-- The label-extraction steps of the mortgage branch of load_data:
first the column filter X = X[:, [i for i in range(X.shape[1]) if i != 4]],
then y = X[:, 4:5] on the already-filtered matrix. -/
def cachedLabel (X0 : Mat) (w : ℕ) : Mat :=
  selectCols (selectCols X0 (colIdxNo4 w)) [4]

/-- Python exceptions raised by the helper code. -/
inductive PyErr where
  | attributeError
  deriving DecidableEq, Repr

/-- The Python values the helper functions to_nparray and array_equal are
applied to in the notebooks.  An ndarray is stored as its rows (a
one-row list for a one-dimensional array); a pandas or cuDF dataframe is
represented by the rows of its underlying two-dimensional value array; a
cuDF series by its entries; pyList stands for any other Python object,
such as a plain list, that none of the isinstance tests of to_nparray
match. -/
inductive PyVal where
  | ndarray (rows : Mat)
  | pdDF (rows : Mat)
  | npFloat64 (x : ℚ)
  | cudfDF (rows : Mat)
  | cudfSeries (xs : List ℚ)
  | pyList (xs : List ℚ)
  deriving DecidableEq, Repr

/-- The flattened numeric contents of a Python value. -/
def PyVal.values : PyVal → List ℚ
  | .ndarray rows => rows.flatten
  | .pdDF rows => rows.flatten
  | .npFloat64 x => [x]
  | .cudfDF rows => rows.flatten
  | .cudfSeries xs => xs
  | .pyList xs => xs

/-- Whether a value is a numpy ndarray. -/
def PyVal.isNdarray : PyVal → Bool
  | .ndarray _ => true
  | _ => false

/-- Whether a value is the fall-through case of to_nparray (none of
np.ndarray, pd.DataFrame, np.float64, cudf.DataFrame, cudf.Series). -/
def PyVal.isOther : PyVal → Bool
  | .pyList _ => true
  | _ => false

/-- The helper to_nparray of the SGD notebook: np.array(x) for an ndarray
or a pandas dataframe, np.array([x]) for an np.float64 scalar,
x.to_pandas().values for a cuDF dataframe or series, and x itself
unchanged for anything else. -/
def to_nparray : PyVal → PyVal
  | .ndarray rows => .ndarray rows
  | .pdDF rows => .ndarray rows
  | .npFloat64 x => .ndarray [[x]]
  | .cudfDF rows => .ndarray rows
  | .cudfSeries xs => .ndarray [xs]
  | .pyList xs => .pyList xs

/-- The numpy method x.ravel(), flattening an ndarray.  An object that is
not an ndarray, such as a plain Python list, has no ravel attribute, so
the call raises AttributeError. -/
def PyVal.ravel : PyVal → Except PyErr (List ℚ)
  | .ndarray rows => .ok rows.flatten
  | _ => .error .attributeError

/-- Model of the external library function sklearn.metrics
mean_squared_error on two equal-length flat arrays: the mean of the
squared differences. -/
def mean_squared_error (a b : List ℚ) : ℚ :=
  (List.zipWith (fun x y => (x - y) ^ 2) a b).sum / a.length

/-- The helper array_equal of the SGD notebook: both arguments are
converted with to_nparray and flattened with ravel, absolute values are
taken when with_sign is False, and the result is the Boolean
mean_squared_error(a, b) < threshold, with default threshold 2e-3 and
default with_sign True. -/
def array_equal (a b : PyVal) (threshold : ℚ := 2 / 1000)
    (with_sign : Bool := true) : Except PyErr Bool := do
  let a ← (to_nparray a).ravel
  let b ← (to_nparray b).ravel
  let (a, b) := if with_sign = false then (a.map abs, b.map abs) else (a, b)
  let error := mean_squared_error a b
  pure (decide (error < threshold))

/-- Column i of the first t rows of M, X[0:t, i]. -/
def colSliceTo (M : Mat) (t i : ℕ) : List ℚ := (M.take t).map (fun r => r.getD i 0)

/-- Column i of the rows of M from index t on, X[t:, i]. -/
def colSliceFrom (M : Mat) (t i : ℕ) : List ℚ := (M.drop t).map (fun r => r.getD i 0)

/-- The dataframe built from the column dictionary with entries
fea i : X[0:train_rows, i] for i in range(w), stored as its columns. -/
def mkTrainDF (M : Mat) (w t : ℕ) : Mat := (List.range w).map (colSliceTo M t)

/-- The dataframe built from the column dictionary with entries
fea i : X[train_rows:, i] for i in range(w), stored as its columns. -/
def mkTestDF (M : Mat) (w t : ℕ) : Mat := (List.range w).map (colSliceFrom M t)

/-- The split point train_rows = int(nrows * 0.8) of both notebooks.
The product nrows * 0.8 is modelled exactly as the rational 4 * nrows / 5;
for the float expression of the source the truncation agrees, since the
fractional part of the exact product is a multiple of 1/5. -/
def train_rows (nrows : ℕ) : ℕ := (4 * nrows) / 5

/-- The value returned by load_data in either notebook: four dataframes
(train features, test features, train labels, test labels, each stored
as its list of columns), together with a flag recording whether the
cached file was opened and read. -/
structure LoadResult where
  readCache : Bool
  df_X_train : Mat
  df_X_test : Mat
  df_y_train : Mat
  df_y_test : Mat
  deriving DecidableEq, Repr

/-- The dataset pair (X, y) selected by the branch of load_data in the
SGD notebook.  Inputs standing for the ambient effects: cacheExists is
os.path.exists(cached); X0 with row width w0 is the array loaded from
the cached file; rind is the draw np.random.randint(0, X.shape[0]-1,
nrows); randX is np.random.rand(nrows, ncols) and randY is
np.random.randint(0, 10, size=(nrows, 1)). -/
def sgd_dataset (ncols : ℕ) (cacheExists : Bool) (X0 : Mat) (w0 : ℕ)
    (rind : List ℕ) (randX randY : Mat) : Mat × Mat :=
  if cacheExists then
    let X1 := selectCols X0 (colIdxNo4 w0)
    let y1 := selectCols X1 [4]
    (⟨(selectRows X1 rind).map (List.take ncols), selectRows y1 rind⟩ : Mat × Mat)
  else
    (randX, randY)

/-- load_data of the SGD notebook: select the dataset by whether the
cached file exists, split at train_rows = int(nrows * 0.8), and build
the four dataframes from column dictionaries. -/
def load_data_sgd (nrows ncols : ℕ) (fs : String → Bool) (X0 : Mat) (w0 : ℕ)
    (rind : List ℕ) (randX randY : Mat)
    (cached : String := "data/mortgage.npy.gz") : LoadResult :=
  let P := sgd_dataset ncols (fs cached) X0 w0 rind randX randY
  let X := P.1
  let y := P.2
  let t := train_rows nrows
  { readCache := fs cached
    df_X_train := mkTrainDF X (width X) t
    df_X_test := mkTestDF X (width X) t
    df_y_train := mkTrainDF y (width y) t
    df_y_test := mkTestDF y (width y) t }

/-- A deterministic pseudo-random rational in [-1/2, 1/2), used to model
the draws of the external random-regression generator. -/
def pseudoRat (s : ℕ) : ℚ :=
  (((1103515245 * s + 12345) % 2 ^ 31 % 1000 : ℕ) : ℚ) / 1000 - 1 / 2

/-- Model of the external library function sklearn.datasets
make_regression (the library is outside this repository; modelled from
its documented behaviour): with the defaults noise=0.0 and bias=0.0 the
returned labels are exactly the linear combination y = X w of the
features for a generated coefficient vector w.  With random_state=None
the draw is seeded from the global numpy state (globalSeed); an integer
random_state makes the output a function of that integer alone. -/
def make_regression (nSamples nFeatures nInformative : ℕ)
    (randomState : Option ℕ) (globalSeed : ℕ) : Mat × List ℚ :=
  let s := (randomState.getD globalSeed) + nInformative
  let X : Mat := (List.range nSamples).map (fun i =>
    (List.range nFeatures).map (fun j => pseudoRat (s + i * nFeatures + j + 1)))
  let w : List ℚ := (List.range nFeatures).map (fun j =>
    pseudoRat (s + nSamples * nFeatures + j + 1))
  (X, X.map (fun r => (List.zipWith (fun a b => a * b) r w).sum))

/-- load_data of the ridge notebook: train_rows is computed first; the
mortgage branch filters column 4, extracts the label, samples nrows
random rows and builds the label frames; the other branch calls
make_regression(n_samples=nrows, n_features=ncols, n_informative=ncols,
random_state=0) and builds the single-column label frames from the
one-dimensional y; the feature frames are built the same way in both
branches. -/
def load_data_ridge (nrows ncols : ℕ) (fs : String → Bool) (X0 : Mat) (w0 : ℕ)
    (rind : List ℕ) (globalSeed : ℕ)
    (cached : String := "data/mortgage.npy.gz") : LoadResult :=
  let t := train_rows nrows
  if fs cached then
    let X1 := selectCols X0 (colIdxNo4 w0)
    let y1 := selectCols X1 [4]
    let X := (selectRows X1 rind).map (List.take ncols)
    let y := selectRows y1 rind
    { readCache := true
      df_X_train := mkTrainDF X (width X) t
      df_X_test := mkTestDF X (width X) t
      df_y_train := mkTrainDF y (width y) t
      df_y_test := mkTestDF y (width y) t }
  else
    let P := make_regression nrows ncols ncols (some 0) globalSeed
    let X := P.1
    let yv := P.2
    { readCache := false
      df_X_train := mkTrainDF X (width X) t
      df_X_test := mkTestDF X (width X) t
      df_y_train := [yv.take t]
      df_y_test := [yv.drop t] }

/-- A dataset whose labels stand in an exact linear-regression relation
to the features: some coefficient vector w reproduces every label as the
linear combination of the corresponding feature row. -/
def IsLinearDataset (X : Mat) (y : List ℚ) : Prop :=
  ∃ w : List ℚ, X.map (fun r => (List.zipWith (fun a b => a * b) r w).sum) = y

/-- The result of the final benchmark cells of a notebook. -/
structure DriverResult where
  error_sk : ℚ
  error_cu : ℚ
  printed : List String
  deriving DecidableEq, Repr

/-- Conversion cudf.DataFrame.from_pandas: the device copy holds the same
values as the host dataframe. -/
def from_pandas (M : Mat) : Mat := M

/-- Conversion of a cuDF series to a host array via .to_array(): the
values are unchanged. -/
def to_array (xs : List ℚ) : List ℚ := xs

/-- The prediction-and-comparison cells of the ridge notebook, after both
models are fit: sk_predict = skridge.predict(X_test), error_sk =
mean_squared_error(y_test, sk_predict), cu_predict =
curidge.predict(X_cudf_test).to_array(), error_cu =
mean_squared_error(y_test, cu_predict), then both errors are printed.
The fitted models enter as their prediction functions, and X_cudf_test
is the cuDF copy of X_test. -/
def ridge_driver (X_test : Mat) (y_test : List ℚ)
    (skPredict cuPredict : Mat → List ℚ) : DriverResult :=
  let X_cudf_test := from_pandas X_test
  let sk_predict := skPredict X_test
  let error_sk := mean_squared_error y_test sk_predict
  let cu_predict := to_array (cuPredict X_cudf_test)
  let error_cu := mean_squared_error y_test cu_predict
  { error_sk := error_sk
    error_cu := error_cu
    printed := ["SKL MSE(y):", toString error_sk,
                "CUML MSE(y):", toString error_cu] }

/-- The prediction-and-comparison cells of the SGD notebook, after both
models are fit: y_sk = sk_sgd.predict(X_test), error_sk =
mean_squared_error(y_test, y_sk), y_pred =
to_nparray(cu_sgd.predict(X_cudf_test)).ravel(), error_cu =
mean_squared_error(y_test, y_pred), then both errors are printed.  The
cuml prediction is a cuDF series, here given by its values. -/
def sgd_driver (X_test : Mat) (y_test : List ℚ)
    (skPredict cuPredict : Mat → List ℚ) : Except PyErr DriverResult := do
  let X_cudf_test := from_pandas X_test
  let y_sk := skPredict X_test
  let error_sk := mean_squared_error y_test y_sk
  let y_pred ← (to_nparray (PyVal.cudfSeries (cuPredict X_cudf_test))).ravel
  let error_cu := mean_squared_error y_test y_pred
  pure { error_sk := error_sk
         error_cu := error_cu
         printed := ["SKL MSE(y):", toString error_sk,
                     "CUML MSE(y):", toString error_cu] }

/-- A Python value passed as a constructor keyword argument, or the
default value of such a parameter.  A float literal of the source is
recorded by constructor f as the exact pair numerator/denominator it
denotes, for example 0.1 as f 1 10 and 0.07 as f 7 100; an int literal
by constructor n. -/
inductive PVal where
  | b (v : Bool)
  | s (v : String)
  | f (num : ℤ) (den : ℕ)
  | n (v : ℕ)
  | none
  deriving DecidableEq, Repr

/-- Keyword arguments of skRidge(fit_intercept=False, normalize=True,
alpha=0.1) in the ridge notebook. -/
def skridge_args : List (String × PVal) :=
  [("fit_intercept", .b false), ("normalize", .b true), ("alpha", .f 1 10)]

/-- Keyword arguments of cuRidge(fit_intercept=False, normalize=True,
solver=svd, alpha=0.1) in the ridge notebook. -/
def curidge_args : List (String × PVal) :=
  [("fit_intercept", .b false), ("normalize", .b true), ("solver", .s "svd"),
   ("alpha", .f 1 10)]

/-- Keyword arguments of SGDRegressor(learning_rate=learning_rate,
eta0=0.07, max_iter=iterations, tol=0.0, fit_intercept=True,
penalty=penalty, loss=loss) in the SGD notebook, with the parameter cell
values learning_rate=adaptive, penalty=elasticnet, loss=squared_loss,
iterations=10. -/
def sk_sgd_args : List (String × PVal) :=
  [("learning_rate", .s "adaptive"), ("eta0", .f 7 100), ("max_iter", .n 10),
   ("tol", .f 0 1), ("fit_intercept", .b true), ("penalty", .s "elasticnet"),
   ("loss", .s "squared_loss")]

/-- Keyword arguments of cumlSGD(learning_rate=learning_rate, eta0=0.07,
epochs=iterations, batch_size=512, tol=0.0, penalty=penalty, loss=loss)
in the SGD notebook, same parameter cell values. -/
def cu_sgd_args : List (String × PVal) :=
  [("learning_rate", .s "adaptive"), ("eta0", .f 7 100), ("epochs", .n 10),
   ("batch_size", .n 512), ("tol", .f 0 1), ("penalty", .s "elasticnet"),
   ("loss", .s "squared_loss")]

/-- Parameters accepted by the external sklearn.linear_model.Ridge
constructor with their default values, in the sklearn era the notebooks
target; the library is outside this repository, so this table is
modelled from its documentation. -/
def skridge_defaults : List (String × PVal) :=
  [("alpha", .f 1 1), ("fit_intercept", .b true), ("normalize", .b false),
   ("copy_X", .b true), ("max_iter", .none), ("tol", .f 1 1000),
   ("solver", .s "auto"), ("random_state", .none)]

/-- Parameters accepted by the cuml Ridge constructor with their
defaults, as documented in the markdown cell of the ridge notebook
itself: alpha, solver (default eig), fit_intercept (default True),
normalize (default False). -/
def curidge_defaults : List (String × PVal) :=
  [("alpha", .f 1 1), ("solver", .s "eig"), ("fit_intercept", .b true),
   ("normalize", .b false)]

/-- Parameters accepted by the external sklearn.linear_model
SGDRegressor constructor with their default values, in the sklearn era
the notebooks target; modelled from the library documentation. -/
def sk_sgd_defaults : List (String × PVal) :=
  [("loss", .s "squared_loss"), ("penalty", .s "l2"), ("alpha", .f 1 10000),
   ("l1_ratio", .f 15 100), ("fit_intercept", .b true), ("max_iter", .n 1000),
   ("tol", .f 1 1000), ("shuffle", .b true), ("verbose", .n 0),
   ("epsilon", .f 1 10), ("random_state", .none),
   ("learning_rate", .s "invscaling"), ("eta0", .f 1 100),
   ("power_t", .f 25 100), ("early_stopping", .b false),
   ("validation_fraction", .f 1 10), ("n_iter_no_change", .n 5),
   ("warm_start", .b false), ("average", .b false)]

/-- Parameters accepted by the cuml SGD constructor with their defaults,
as listed in the markdown cell of the SGD notebook itself (loss
squared_loss, penalty none, alpha 0.0001, fit_intercept True, epochs
1000, tol 1e-3, shuffle True, eta0 0.0, power_t 0.5, learning_rate
constant, n_iter_no_change 5), plus batch_size, which the notebook
passes explicitly. -/
def cu_sgd_defaults : List (String × PVal) :=
  [("loss", .s "squared_loss"), ("penalty", .s "none"), ("alpha", .f 1 10000),
   ("fit_intercept", .b true), ("epochs", .n 1000), ("tol", .f 1 1000),
   ("shuffle", .b true), ("eta0", .f 0 1), ("power_t", .f 5 10),
   ("learning_rate", .s "constant"), ("n_iter_no_change", .n 5),
   ("batch_size", .n 32)]

/-- The value a constructor actually receives for parameter p: the
explicitly passed keyword argument when present, else the default value
of the constructor. -/
def effectiveParam (args defaults : List (String × PVal)) (p : String) : Option PVal :=
  match args.lookup p with
  | some v => some v
  | Option.none => defaults.lookup p

/-- The parameters accepted by both libraries for one model: those
occurring in both default tables. -/
def commonParams (skDefaults cuDefaults : List (String × PVal)) : List String :=
  (skDefaults.map Prod.fst).filter (fun p => (cuDefaults.map Prod.fst).contains p)

/-- The mean squared error as the specification states it: the mean of
the squared differences of corresponding entries. -/
def mseSpec (a b : List ℚ) : ℚ :=
  (∑ i in Finset.range a.length, (a.getD i 0 - b.getD i 0) ^ 2) / a.length

/-- The arrays actually compared by array_equal: the signed values when
with_sign is True, the element-wise absolute values when it is False. -/
def signAdjust (s : Bool) (l : List ℚ) : List ℚ := if s then l else l.map abs

lemma colIdxNo4_getElem4 (w : ℕ) (h : 6 ≤ w) : (colIdxNo4 w)[4]? = some 5 := by
  obtain ⟨k, rfl⟩ : ∃ k, w = 6 + k := ⟨w - 6, by omega⟩
  unfold colIdxNo4
  rw [List.range_add, List.filter_append,
    show (List.range 6).filter (fun i => decide (i ≠ 4)) = [0, 1, 2, 3, 5] from rfl,
    List.getElem?_append_left (by norm_num)]
  rfl

/-- Claim C8: in the cached branch of load_data, column 4 of the loaded
array is removed before the label is extracted, and the label is then
taken as column 4 of the already-filtered matrix, so for every loaded
array of width at least 6 the label equals column 5 of the original
array. -/
theorem claim8_label_is_column5 (X0 : Mat) (w : ℕ) (h : 6 ≤ w) :
    cachedLabel X0 w = selectCols X0 [5] := by
  unfold cachedLabel selectCols
  rw [List.map_map]
  refine List.map_congr_left (fun r _ => ?_)
  simp only [Function.comp_apply, List.map_cons, List.map_nil, List.cons.injEq,
    and_true]
  rw [List.getD_eq_getElem?_getD, List.getElem?_map, colIdxNo4_getElem4 w h]
  rfl

theorem claim8_label_is_column5_witness :
    6 ≤ 6 ∧ cachedLabel [[(0 : ℚ), 1, 2, 3, 4, 5]] 6 =
      selectCols [[(0 : ℚ), 1, 2, 3, 4, 5]] [5] :=
  ⟨by norm_num, claim8_label_is_column5 [[(0 : ℚ), 1, 2, 3, 4, 5]] 6 (by norm_num)⟩

/-- Claim C9: an input whose type matches none of the isinstance tests of
to_nparray, such as a plain Python list, is returned unchanged, and
array_equal applied to such an input raises AttributeError at the ravel
call instead of converting and comparing. -/
theorem claim9_fallthrough_attribute_error (xs : List ℚ) (b : PyVal) (t : ℚ)
    (s : Bool) :
    to_nparray (.pyList xs) = .pyList xs ∧
      array_equal (.pyList xs) b t s = .error .attributeError :=
  ⟨rfl, rfl⟩

/-- Claim C6: each notebook driver computes error_sk as the mean squared
error between the held-out test labels and the sklearn prediction on the
test features, error_cu as the mean squared error between the same
labels and the cuml prediction on the same test features, and prints
both error values. -/
theorem claim6_driver_mse_and_print (X_test : Mat) (y_test : List ℚ)
    (skPredict cuPredict : Mat → List ℚ) :
    (ridge_driver X_test y_test skPredict cuPredict).error_sk =
        mean_squared_error y_test (skPredict X_test) ∧
    (ridge_driver X_test y_test skPredict cuPredict).error_cu =
        mean_squared_error y_test (cuPredict X_test) ∧
    (ridge_driver X_test y_test skPredict cuPredict).printed =
        ["SKL MSE(y):", toString (mean_squared_error y_test (skPredict X_test)),
         "CUML MSE(y):", toString (mean_squared_error y_test (cuPredict X_test))] ∧
    sgd_driver X_test y_test skPredict cuPredict =
      .ok { error_sk := mean_squared_error y_test (skPredict X_test)
            error_cu := mean_squared_error y_test (cuPredict X_test)
            printed :=
              ["SKL MSE(y):",
               toString (mean_squared_error y_test (skPredict X_test)),
               "CUML MSE(y):",
               toString (mean_squared_error y_test (cuPredict X_test))] } :=
  ⟨rfl, rfl, rfl, by
    unfold sgd_driver from_pandas
    show Except.bind (to_nparray (PyVal.cudfSeries (cuPredict X_test))).ravel _ = _
    simp only [to_nparray, PyVal.ravel, List.flatten, List.append_nil, Except.bind]
    rfl⟩

/-- Claim C10: in the ridge notebook the synthetic branch of load_data is
deterministic; its output does not depend on the loaded cache array, the
global randint draw, or the ambient numpy random state, because
make_regression is called with random_state=0 and the split is by fixed
row order. -/
theorem claim10_ridge_random_deterministic (nrows ncols : ℕ)
    (X0 X0p : Mat) (w0 w0p : ℕ) (rind rindp : List ℕ) (g gp : ℕ) :
    load_data_ridge nrows ncols (fun _ => false) X0 w0 rind g =
      load_data_ridge nrows ncols (fun _ => false) X0p w0p rindp gp :=
  rfl

/-- Claim C7: for every input that is an ndarray, a pandas dataframe, an
np.float64 scalar, a cuDF dataframe or a cuDF series, to_nparray returns
a numpy ndarray holding the same numeric values, an np.float64 scalar
becoming a one-element array. -/
theorem claim7_to_nparray_conversion (x : PyVal) (h : x.isOther = false) :
    (to_nparray x).isNdarray = true ∧ (to_nparray x).values = x.values ∧
      ∀ c : ℚ, x = .npFloat64 c → (to_nparray x).values = [c] := by
  cases x <;>
    simp_all [to_nparray, PyVal.isOther, PyVal.isNdarray, PyVal.values,
      List.flatten]

theorem claim7_to_nparray_conversion_witness :
    (PyVal.npFloat64 (3 : ℚ)).isOther = false ∧
      ((to_nparray (PyVal.npFloat64 3)).isNdarray = true ∧
       (to_nparray (PyVal.npFloat64 3)).values = (PyVal.npFloat64 3).values ∧
       ∀ c : ℚ, PyVal.npFloat64 (3 : ℚ) = .npFloat64 c →
         (to_nparray (PyVal.npFloat64 3)).values = [c]) :=
  ⟨rfl, claim7_to_nparray_conversion (PyVal.npFloat64 3) rfl⟩

lemma zipWith_sum_eq (f : ℚ → ℚ → ℚ) :
    ∀ a b : List ℚ, a.length = b.length →
      (List.zipWith f a b).sum =
        ∑ i in Finset.range a.length, f (a.getD i 0) (b.getD i 0) := by
  intro a
  induction a with
  | nil => intro b _; simp
  | cons x xs ih =>
    intro b h
    cases b with
    | nil => simp at h
    | cons y ys =>
      simp only [List.zipWith_cons_cons, List.sum_cons, List.length_cons]
      rw [Finset.sum_range_succ']
      simp only [List.getD_cons_succ, List.getD_cons_zero]
      rw [ih ys (by simpa using h)]
      ring

/-- Claim C3: for inputs of equal (nonzero) total element count,
array_equal returns True exactly when the mean squared error between the
flattened converted arrays is strictly below the threshold, whose
default is 2e-3; with with_sign False the element-wise absolute values
of both arrays are compared instead of the signed values. -/
theorem claim3_array_equal_mse_iff (a b : PyVal) (t : ℚ) (s : Bool)
    (va vb : List ℚ) (ha : (to_nparray a).ravel = .ok va)
    (hb : (to_nparray b).ravel = .ok vb) (hlen : va.length = vb.length)
    (hne : va ≠ []) :
    (array_equal a b t s = .ok true ↔
        mseSpec (signAdjust s va) (signAdjust s vb) < t) ∧
    array_equal a b = array_equal a b (2 / 1000) true := by
  refine ⟨?_, rfl⟩
  have hlen2 : (signAdjust s va).length = (signAdjust s vb).length := by
    cases s <;> simp [signAdjust, hlen]
  have hmse : mean_squared_error (signAdjust s va) (signAdjust s vb) =
      mseSpec (signAdjust s va) (signAdjust s vb) := by
    unfold mean_squared_error mseSpec
    rw [zipWith_sum_eq _ _ _ hlen2]
  have key : array_equal a b t s =
      .ok (decide (mean_squared_error (signAdjust s va) (signAdjust s vb) < t)) := by
    unfold array_equal signAdjust
    rw [ha, hb]
    cases s <;> rfl
  rw [key, hmse]
  simp [decide_eq_true_eq]

theorem claim3_array_equal_mse_iff_witness :
    ((to_nparray (PyVal.ndarray [[1, 2]])).ravel = .ok [1, 2] ∧
     ((1 : ℚ) :: [2]).length = ((1 : ℚ) :: [2]).length ∧
     ((1 : ℚ) :: [2]) ≠ []) ∧
    ((array_equal (PyVal.ndarray [[1, 2]]) (PyVal.ndarray [[1, 2]])
          (2 / 1000) true = .ok true ↔
        mseSpec (signAdjust true [1, 2]) (signAdjust true [1, 2]) < 2 / 1000) ∧
      array_equal (PyVal.ndarray [[1, 2]]) (PyVal.ndarray [[1, 2]]) =
        array_equal (PyVal.ndarray [[1, 2]]) (PyVal.ndarray [[1, 2]])
          (2 / 1000) true) :=
  ⟨⟨rfl, rfl, by decide⟩,
   claim3_array_equal_mse_iff (PyVal.ndarray [[1, 2]]) (PyVal.ndarray [[1, 2]])
     (2 / 1000) true [1, 2] [1, 2] rfl rfl rfl (by decide)⟩

/-- Claim C1 fails as stated: the parameter solver is accepted by both
ridge constructors, the cuml model is passed svd while the sklearn model
is left at its default auto, so the two models are not configured with
identical hyperparameters. -/
theorem claim1_solver_differs :
    "solver" ∈ commonParams skridge_defaults curidge_defaults ∧
    effectiveParam skridge_args skridge_defaults "solver" ≠
      effectiveParam curidge_args curidge_defaults "solver" :=
  ⟨by decide, by decide⟩

/-- Claim C1 amended: in each notebook, for every parameter accepted by
both libraries other than the ridge solver and the SGD power_t, the
value passed (or left to default) agrees between the sklearn constructor
and the cuml constructor. -/
theorem claim1_params_agree_off_exceptions (p q : String)
    (hp : p ∈ commonParams skridge_defaults curidge_defaults)
    (hps : p ≠ "solver")
    (hq : q ∈ commonParams sk_sgd_defaults cu_sgd_defaults)
    (hqs : q ≠ "power_t") :
    effectiveParam skridge_args skridge_defaults p =
      effectiveParam curidge_args curidge_defaults p ∧
    effectiveParam sk_sgd_args sk_sgd_defaults q =
      effectiveParam cu_sgd_args cu_sgd_defaults q := by
  have h1 : ∀ r ∈ commonParams skridge_defaults curidge_defaults,
      r ≠ "solver" →
        effectiveParam skridge_args skridge_defaults r =
          effectiveParam curidge_args curidge_defaults r := by decide
  have h2 : ∀ r ∈ commonParams sk_sgd_defaults cu_sgd_defaults,
      r ≠ "power_t" →
        effectiveParam sk_sgd_args sk_sgd_defaults r =
          effectiveParam cu_sgd_args cu_sgd_defaults r := by decide
  exact ⟨h1 p hp hps, h2 q hq hqs⟩

theorem claim1_params_agree_off_exceptions_witness :
    ("alpha" ∈ commonParams skridge_defaults curidge_defaults ∧
     "alpha" ≠ "solver" ∧
     "alpha" ∈ commonParams sk_sgd_defaults cu_sgd_defaults ∧
     "alpha" ≠ "power_t") ∧
    (effectiveParam skridge_args skridge_defaults "alpha" =
       effectiveParam curidge_args curidge_defaults "alpha" ∧
     effectiveParam sk_sgd_args sk_sgd_defaults "alpha" =
       effectiveParam cu_sgd_args cu_sgd_defaults "alpha") :=
  ⟨⟨by decide, by decide, by decide, by decide⟩,
   claim1_params_agree_off_exceptions "alpha" "alpha" (by decide) (by decide)
     (by decide) (by decide)⟩

/-- Claim C2: load_data opens and reads the cached compressed array
exactly when the file data/mortgage.npy.gz exists; when it does not
exist the output is synthesized and does not depend on the cache inputs,
and when it does exist the output does not depend on the synthetic
random inputs; in both branches the four returned dataframes are the
train-feature, test-feature, train-label and test-label tables. -/
theorem claim2_cache_branching (nrows ncols : ℕ) (fs : String → Bool)
    (X0 X0p : Mat) (w0 w0p : ℕ) (rind rindp : List ℕ)
    (randX randY randXp randYp : Mat) (g gp : ℕ) :
    (load_data_sgd nrows ncols fs X0 w0 rind randX randY).readCache =
        fs "data/mortgage.npy.gz" ∧
    (load_data_ridge nrows ncols fs X0 w0 rind g).readCache =
        fs "data/mortgage.npy.gz" ∧
    load_data_sgd nrows ncols (fun _ => false) X0 w0 rind randX randY =
      load_data_sgd nrows ncols (fun _ => false) X0p w0p rindp randX randY ∧
    load_data_sgd nrows ncols (fun _ => true) X0 w0 rind randX randY =
      load_data_sgd nrows ncols (fun _ => true) X0 w0 rind randXp randYp ∧
    load_data_ridge nrows ncols (fun _ => false) X0 w0 rind g =
      load_data_ridge nrows ncols (fun _ => false) X0p w0p rindp g ∧
    load_data_ridge nrows ncols (fun _ => true) X0 w0 rind g =
      load_data_ridge nrows ncols (fun _ => true) X0 w0 rind gp ∧
    (load_data_sgd nrows ncols (fun _ => false) X0 w0 rind randX randY).df_X_train =
      mkTrainDF randX (width randX) (train_rows nrows) ∧
    (load_data_sgd nrows ncols (fun _ => false) X0 w0 rind randX randY).df_X_test =
      mkTestDF randX (width randX) (train_rows nrows) ∧
    (load_data_sgd nrows ncols (fun _ => false) X0 w0 rind randX randY).df_y_train =
      mkTrainDF randY (width randY) (train_rows nrows) ∧
    (load_data_sgd nrows ncols (fun _ => false) X0 w0 rind randX randY).df_y_test =
      mkTestDF randY (width randY) (train_rows nrows) := by
  refine ⟨rfl, ?_, rfl, rfl, rfl, rfl, rfl, rfl, rfl, rfl⟩
  unfold load_data_ridge
  cases h : fs "data/mortgage.npy.gz" <;> simp [h]

/-- Claim C4 fails as stated: in the SGD notebook the branch taken when
the cached file is absent returns the raw uniform features and the
independently drawn integer labels unchanged, and a reachable draw, two
equal feature rows with distinct labels, admits no linear-regression
relationship between features and labels, so that branch is not a
random-regression generator. -/
theorem claim4_sgd_branch_not_regression :
    (sgd_dataset 1 false [] 0 [] [[1 / 2], [1 / 2]] [[0], [1]]).1 =
        [[1 / 2], [1 / 2]] ∧
    (sgd_dataset 1 false [] 0 [] [[1 / 2], [1 / 2]] [[0], [1]]).2 =
        [[0], [1]] ∧
    getCol [[(0 : ℚ)], [1]] 0 = [0, 1] ∧
    ¬ IsLinearDataset [[1 / 2], [1 / 2]] [0, 1] := by
  refine ⟨rfl, rfl, rfl, ?_⟩
  rintro ⟨w, hw⟩
  simp only [List.map_cons, List.map_nil, List.cons.injEq, and_true] at hw
  obtain ⟨h1, h2⟩ := hw
  rw [h1] at h2
  exact absurd h2 (by norm_num)

/-- Claim C4 amended: when the cached file is absent, the ridge notebook
synthesizes its dataset through make_regression with random_state=0,
whose labels are an exact linear function of the features, while the SGD
notebook fills features from np.random.rand and labels from an
independent np.random.randint draw and returns both unchanged. -/
theorem claim4_synthetic_generators (nrows ncols : ℕ) (X0 : Mat) (w0 : ℕ)
    (rind : List ℕ) (randX randY : Mat) (g : ℕ) :
    IsLinearDataset (make_regression nrows ncols ncols (some 0) g).1
        (make_regression nrows ncols ncols (some 0) g).2 ∧
    load_data_ridge nrows ncols (fun _ => false) X0 w0 rind g =
      { readCache := false
        df_X_train := mkTrainDF (make_regression nrows ncols ncols (some 0) g).1
          (width (make_regression nrows ncols ncols (some 0) g).1)
          (train_rows nrows)
        df_X_test := mkTestDF (make_regression nrows ncols ncols (some 0) g).1
          (width (make_regression nrows ncols ncols (some 0) g).1)
          (train_rows nrows)
        df_y_train :=
          [(make_regression nrows ncols ncols (some 0) g).2.take (train_rows nrows)]
        df_y_test :=
          [(make_regression nrows ncols ncols (some 0) g).2.drop (train_rows nrows)] } ∧
    sgd_dataset ncols false X0 w0 rind randX randY = (randX, randY) := by
  refine ⟨?_, rfl, rfl⟩
  unfold IsLinearDataset make_regression
  exact ⟨_, rfl⟩

lemma colSliceTo_eq (M : Mat) (t j : ℕ) : colSliceTo M t j = (getCol M j).take t :=
  List.map_take _ M t

lemma colSliceFrom_eq (M : Mat) (t j : ℕ) : colSliceFrom M t j = (getCol M j).drop t :=
  List.map_drop _ M t

lemma mkTrainDF_eq (M : Mat) (w t : ℕ) :
    mkTrainDF M w t = (List.range w).map (fun j => (getCol M j).take t) :=
  List.map_congr_left (fun j _ => colSliceTo_eq M t j)

lemma mkTestDF_eq (M : Mat) (w t : ℕ) :
    mkTestDF M w t = (List.range w).map (fun j => (getCol M j).drop t) :=
  List.map_congr_left (fun j _ => colSliceFrom_eq M t j)

/-- An 80:20 partition by row order: the first frame holds, for every
column of the dataset M, exactly its first train_rows entries, the
second frame the remaining entries, and with nrows dataset rows those
counts are train_rows nrows and nrows - train_rows nrows. -/
def partitions80 (dfTrain dfTest : Mat) (M : Mat) (nrows : ℕ) : Prop :=
  dfTrain = (List.range (width M)).map (fun j => (getCol M j).take (train_rows nrows)) ∧
  dfTest = (List.range (width M)).map (fun j => (getCol M j).drop (train_rows nrows)) ∧
  (∀ c ∈ dfTrain, c.length = train_rows nrows) ∧
  (∀ c ∈ dfTest, c.length = nrows - train_rows nrows)

lemma partitions80_of_length (M : Mat) (nrows : ℕ) (hM : M.length = nrows) :
    partitions80 (mkTrainDF M (width M) (train_rows nrows))
      (mkTestDF M (width M) (train_rows nrows)) M nrows := by
  have ht : train_rows nrows ≤ nrows := by unfold train_rows; omega
  refine ⟨mkTrainDF_eq M (width M) (train_rows nrows),
    mkTestDF_eq M (width M) (train_rows nrows), ?_, ?_⟩
  · intro c hc
    rw [mkTrainDF_eq] at hc
    obtain ⟨j, -, rfl⟩ := List.mem_map.1 hc
    rw [List.length_take, getCol, List.length_map, hM]
    exact Nat.min_eq_left ht
  · intro c hc
    rw [mkTestDF_eq] at hc
    obtain ⟨j, -, rfl⟩ := List.mem_map.1 hc
    rw [List.length_drop, getCol, List.length_map, hM]

/-- Claim C5: in both notebooks the four tables returned by load_data
partition the selected dataset by row order into an 80:20 split: the
train frames hold exactly the first int(nrows * 0.8) rows of every
column and the test frames the remaining nrows - int(nrows * 0.8) rows,
in the cached branch and in the synthetic branch alike. -/
theorem claim5_split_80_20 (nrows ncols : ℕ) (fs : String → Bool) (X0 : Mat)
    (w0 : ℕ) (rind : List ℕ) (randX randY : Mat) (g : ℕ)
    (hr : rind.length = nrows) (hx : randX.length = nrows)
    (hy : randY.length = nrows) :
    partitions80 (load_data_sgd nrows ncols fs X0 w0 rind randX randY).df_X_train
      (load_data_sgd nrows ncols fs X0 w0 rind randX randY).df_X_test
      (sgd_dataset ncols (fs "data/mortgage.npy.gz") X0 w0 rind randX randY).1
      nrows ∧
    partitions80 (load_data_sgd nrows ncols fs X0 w0 rind randX randY).df_y_train
      (load_data_sgd nrows ncols fs X0 w0 rind randX randY).df_y_test
      (sgd_dataset ncols (fs "data/mortgage.npy.gz") X0 w0 rind randX randY).2
      nrows ∧
    partitions80
      (load_data_ridge nrows ncols (fun _ => true) X0 w0 rind g).df_X_train
      (load_data_ridge nrows ncols (fun _ => true) X0 w0 rind g).df_X_test
      ((selectRows (selectCols X0 (colIdxNo4 w0)) rind).map (List.take ncols))
      nrows ∧
    partitions80
      (load_data_ridge nrows ncols (fun _ => true) X0 w0 rind g).df_y_train
      (load_data_ridge nrows ncols (fun _ => true) X0 w0 rind g).df_y_test
      (selectRows (selectCols (selectCols X0 (colIdxNo4 w0)) [4]) rind) nrows ∧
    partitions80
      (load_data_ridge nrows ncols (fun _ => false) X0 w0 rind g).df_X_train
      (load_data_ridge nrows ncols (fun _ => false) X0 w0 rind g).df_X_test
      (make_regression nrows ncols ncols (some 0) g).1 nrows ∧
    (load_data_ridge nrows ncols (fun _ => false) X0 w0 rind g).df_y_train =
      [(make_regression nrows ncols ncols (some 0) g).2.take (train_rows nrows)] ∧
    (load_data_ridge nrows ncols (fun _ => false) X0 w0 rind g).df_y_test =
      [(make_regression nrows ncols ncols (some 0) g).2.drop (train_rows nrows)] ∧
    ((make_regression nrows ncols ncols (some 0) g).2.take
        (train_rows nrows)).length = train_rows nrows ∧
    ((make_regression nrows ncols ncols (some 0) g).2.drop
        (train_rows nrows)).length = nrows - train_rows nrows ∧
    (∀ fsp : String → Bool,
      load_data_ridge nrows ncols fsp X0 w0 rind g =
        load_data_ridge nrows ncols (fun _ => fsp "data/mortgage.npy.gz") X0 w0
          rind g) := by
  have hy2 : (make_regression nrows ncols ncols (some 0) g).2.length = nrows := by
    simp [make_regression]
  have ht : train_rows nrows ≤ nrows := by unfold train_rows; omega
  have hXs : (sgd_dataset ncols (fs "data/mortgage.npy.gz") X0 w0 rind randX
      randY).1.length = nrows := by
    cases h : fs "data/mortgage.npy.gz" <;>
      simp [sgd_dataset, h, selectRows, hr, hx]
  have hYs : (sgd_dataset ncols (fs "data/mortgage.npy.gz") X0 w0 rind randX
      randY).2.length = nrows := by
    cases h : fs "data/mortgage.npy.gz" <;>
      simp [sgd_dataset, h, selectRows, hr, hy]
  refine ⟨partitions80_of_length _ nrows hXs, partitions80_of_length _ nrows hYs,
    partitions80_of_length _ nrows (by simp [selectRows, hr]),
    partitions80_of_length _ nrows (by simp [selectRows, hr]),
    partitions80_of_length _ nrows (by simp [make_regression]),
    rfl, rfl, ?_, ?_, fun _ => rfl⟩
  · rw [List.length_take, hy2]
    exact Nat.min_eq_left ht
  · rw [List.length_drop, hy2]

theorem claim5_split_80_20_witness :
    (([0] : List ℕ).length = 1 ∧ ([[(3 : ℚ)]] : Mat).length = 1 ∧
      ([[(7 : ℚ)]] : Mat).length = 1) ∧
    (partitions80
      (load_data_sgd 1 1 (fun _ => false) [] 0 [0] [[3]] [[7]]).df_X_train
      (load_data_sgd 1 1 (fun _ => false) [] 0 [0] [[3]] [[7]]).df_X_test
      (sgd_dataset 1 ((fun _ => false) "data/mortgage.npy.gz") [] 0 [0] [[3]]
        [[7]]).1 1 ∧
    partitions80
      (load_data_sgd 1 1 (fun _ => false) [] 0 [0] [[3]] [[7]]).df_y_train
      (load_data_sgd 1 1 (fun _ => false) [] 0 [0] [[3]] [[7]]).df_y_test
      (sgd_dataset 1 ((fun _ => false) "data/mortgage.npy.gz") [] 0 [0] [[3]]
        [[7]]).2 1 ∧
    partitions80
      (load_data_ridge 1 1 (fun _ => true) [] 0 [0] 0).df_X_train
      (load_data_ridge 1 1 (fun _ => true) [] 0 [0] 0).df_X_test
      ((selectRows (selectCols [] (colIdxNo4 0)) [0]).map (List.take 1)) 1 ∧
    partitions80
      (load_data_ridge 1 1 (fun _ => true) [] 0 [0] 0).df_y_train
      (load_data_ridge 1 1 (fun _ => true) [] 0 [0] 0).df_y_test
      (selectRows (selectCols (selectCols [] (colIdxNo4 0)) [4]) [0]) 1 ∧
    partitions80
      (load_data_ridge 1 1 (fun _ => false) [] 0 [0] 0).df_X_train
      (load_data_ridge 1 1 (fun _ => false) [] 0 [0] 0).df_X_test
      (make_regression 1 1 1 (some 0) 0).1 1 ∧
    (load_data_ridge 1 1 (fun _ => false) [] 0 [0] 0).df_y_train =
      [(make_regression 1 1 1 (some 0) 0).2.take (train_rows 1)] ∧
    (load_data_ridge 1 1 (fun _ => false) [] 0 [0] 0).df_y_test =
      [(make_regression 1 1 1 (some 0) 0).2.drop (train_rows 1)] ∧
    ((make_regression 1 1 1 (some 0) 0).2.take (train_rows 1)).length =
      train_rows 1 ∧
    ((make_regression 1 1 1 (some 0) 0).2.drop (train_rows 1)).length =
      1 - train_rows 1 ∧
    (∀ fsp : String → Bool,
      load_data_ridge 1 1 fsp [] 0 [0] 0 =
        load_data_ridge 1 1 (fun _ => fsp "data/mortgage.npy.gz") [] 0 [0] 0)) :=
  ⟨⟨rfl, rfl, rfl⟩,
   claim5_split_80_20 1 1 (fun _ => false) [] 0 [0] [[3]] [[7]] 0 rfl rfl rfl⟩
